import Mathlib

/-!
Shallow embedding of `src/lib/pool.js` from the dashboard repository.

The module defines a `RewardsPool` wrapper over an on-chain staking
contract, two behaviour variants (auto-compounding and harvest), a
factory `fromPool` dispatching on the descriptor's `type` tag, read
operations (`stakedBalance`, `unstakedBalance`, `percentageOfTotal`,
`percentageOwnership`, `usdValueOf`, `summary`) and the mutating
`approveAndStake` flow.

Modelling conventions:
* On-chain amounts (ethers `BigNumber` values holding uint256 contract
  data) are modelled as `Nat`; `BigNumber` arithmetic in the JS layer is
  arbitrary precision, so no wrap-around modelling is needed.
* The blockchain plus the external collaborators the spec excludes (the
  token adapter of `tokens.js` and the registry's active-address
  predicate) are bundled into one read-only environment `ChainState`;
  each pool addresses it by contract / token address, mirroring how the
  contract handles are bound.
* The asynchronous calls of the source all read this single environment;
  concurrency is irrelevant to the claims, so each `async` method
  becomes a pure function of `ChainState`.
* `approveAndStake` returns, besides its outcome, the ordered list of
  chain operations it issued (reads and transaction submissions), so
  that "issues no transaction" claims are statable.
* JavaScript truthiness matters in `summary`: the placeholder `{}` the
  code uses for a missing underlying balance is a truthy object.
  `JsValue` captures exactly the values that can flow into that slot.
-/

namespace Dashboard

/-- An asset descriptor as consumed by `Token.fromAsset`: its display
name, its token contract address, and whether the derived token adapter
exposes the optional `underlyingBalanceOf` capability (share → underlying
conversion via `calcShare`). -/
structure Asset where
  name : String
  address : String
  hasUnderlying : Bool
deriving DecidableEq

/-- A registry pool descriptor: `{address, name?, asset, rewardAsset, type}`.
The variant tag lives in the `type` field, matching `pool.type` in the
source. -/
structure PoolDescriptor where
  address : String
  name : Option String
  asset : Asset
  rewardAsset : Asset
  type : Option String
deriving DecidableEq

/-- The connection handle (`provider`): whether it is an authorized
signer (`ethers.Signer.isSigner`) and, if so, the signer's address
(`provider.getAddress()`). -/
structure Provider where
  isSigner : Bool
  signerAddress : String
deriving DecidableEq

/-- The read-only environment a pool observes: the pool contracts
(keyed by pool contract address), the token adapters (keyed by token
address), and the registry's active-address predicate. -/
structure ChainState where
  /-- pool contract `balanceOf`: pool address → account → staked balance -/
  balanceOf : String → String → Nat
  /-- pool contract `totalSupply`: pool address → total supply -/
  totalSupply : String → Nat
  /-- harvest pool contract `earned`: pool address → account → earned rewards -/
  earned : String → String → Nat
  /-- token adapter `balanceOf`: token address → account → wallet balance -/
  tokenBalanceOf : String → String → Nat
  /-- token adapter `allowances`: token address → owner → spender → allowance -/
  tokenAllowance : String → String → String → Nat
  /-- token adapter `usdValueOf`: token address → amount → USD value -/
  tokenUsdValueOf : String → Nat → Nat
  /-- token adapter `calcShare`: token address → shares → underlying amount -/
  tokenCalcShare : String → Nat → Nat
  /-- registry `data.isAddressActive` -/
  isAddressActive : String → Bool

/-- The two concrete subclasses of `RewardsPool`. -/
inductive PoolVariant
  | autocompounding
  | harvest
deriving DecidableEq

/-- A constructed pool: the bound descriptor, the connection, and the
variant chosen by the factory. -/
structure RewardsPool where
  pool : PoolDescriptor
  provider : Provider
  variant : PoolVariant
deriving DecidableEq

/-- `RewardsPool.fromPool`: dispatches on `pool.type`; the case
`'autocompounding'` builds an `AutoCompoundingRewardsPool`, every other
value (including an absent tag) falls into the `default:` branch and
builds a `HarvestRewardsPool`. Construction never fails. -/
def RewardsPool.fromPool (pool : PoolDescriptor) (provider : Provider) : RewardsPool :=
  if pool.type = some "autocompounding" then
    ⟨pool, provider, PoolVariant.autocompounding⟩
  else
    ⟨pool, provider, PoolVariant.harvest⟩

/-- `earnedRewards`: the auto-compounding subclass overrides it to
`ethers.BigNumber.from(0)`; the harvest subclass aliases it to the
contract's `earned` query (`this.earnedRewards = this.earned`). -/
def RewardsPool.earnedRewards (rp : RewardsPool) (s : ChainState) (address : String) : Nat :=
  match rp.variant with
  | PoolVariant.autocompounding => 0
  | PoolVariant.harvest => s.earned rp.pool.address address

/-- Constructor alias `this.stakedBalance = this.balanceOf`: the pool
contract's staking-balance query. -/
def RewardsPool.stakedBalance (rp : RewardsPool) (s : ChainState) (address : String) : Nat :=
  s.balanceOf rp.pool.address address

/-- Constructor alias `this.unstakedBalance = this.lptoken.balanceOf`:
the staked-asset adapter's wallet balance. -/
def RewardsPool.unstakedBalance (rp : RewardsPool) (s : ChainState) (address : String) : Nat :=
  s.tokenBalanceOf rp.pool.asset.address address

/-- `usdValueOf`: prices the staked balance via the staked-asset adapter
and the earned rewards via the reward-asset adapter, and sums. -/
def RewardsPool.usdValueOf (rp : RewardsPool) (s : ChainState) (address : String) : Nat :=
  let stakedBalance := rp.stakedBalance s address
  let rewardBalance := rp.earnedRewards s address
  s.tokenUsdValueOf rp.pool.asset.address stakedBalance
    + s.tokenUsdValueOf rp.pool.rewardAsset.address rewardBalance

/-- `ethers.constants.WeiPerEther`. -/
def WeiPerEther : Nat := 10 ^ 18

/-- `ethers.constants.MaxUint256`, the unlimited-approval sentinel. -/
def MaxUint256 : Nat := 2 ^ 256 - 1

/-- Drop trailing `'0'` characters, as the trailing-zero strip of
`ethers.utils.formatUnits` does on the fractional part. -/
def dropTrailingZeros (cs : List Char) : List Char :=
  (cs.reverse.dropWhile (fun c => c = '0')).reverse

/-- `ethers.utils.formatUnits(value, decimals)` for a non-negative
value: the integer part, a dot, and the fractional part left-padded to
`decimals` digits with its trailing zeros stripped ("0" when the
fraction vanishes). -/
def formatUnits (value : Nat) (decimals : Nat) : String :=
  let mult := 10 ^ decimals
  let whole := value / mult
  let frac := value % mult
  let fracStr := toString frac
  let padded := List.replicate (decimals - fracStr.length) '0' ++ fracStr.data
  let trimmed := dropTrailingZeros padded
  let fracOut := if trimmed.isEmpty then "0" else String.mk trimmed
  toString whole ++ "." ++ fracOut

/-- `percentageOfTotal(tokens)`: `'0%'` for a zero amount; else `'0%'`
for a zero total supply; else `tokens * WeiPerEther / total` formatted
at 16 decimals, sliced to its first 5 characters, with `'%'` appended. -/
def RewardsPool.percentageOfTotal (rp : RewardsPool) (s : ChainState) (tokens : Nat) : String :=
  if tokens = 0 then "0%"
  else
    let total := s.totalSupply rp.pool.address
    if total = 0 then "0%"
    else
      let amnt := tokens * WeiPerEther / total
      (formatUnits amnt 16).take 5 ++ "%"

/-- `percentageOwnership(address)`: `percentageOfTotal` of the contract's
`balanceOf(address)`. -/
def RewardsPool.percentageOwnership (rp : RewardsPool) (s : ChainState) (address : String) : String :=
  rp.percentageOfTotal s (s.balanceOf rp.pool.address address)

/-- A JavaScript value that can reach the `underlyingBalanceOf` slot of
`summary`: a `BigNumber` amount, the `\x7b\x7d` empty-object placeholder, or
`undefined`. -/
inductive JsValue
  | bignum (n : Nat)
  | emptyObject
  | undefinedV
deriving DecidableEq

/-- JavaScript truthiness of such a value: every object (a `BigNumber`
and the empty object alike) is truthy; `undefined` is falsy. -/
def JsValue.truthy : JsValue → Bool
  | JsValue.bignum _ => true
  | JsValue.emptyObject => true
  | JsValue.undefinedV => false

/-- The `underlying` helper inside `summary`: when the constructor bound
`this.underlyingBalanceOf` (the staked-asset adapter has the
capability) it returns the share→underlying conversion of the staked
balance; otherwise it returns the empty-object placeholder. -/
def RewardsPool.summaryUnderlying (rp : RewardsPool) (s : ChainState) (address : String) : JsValue :=
  if rp.pool.asset.hasUnderlying then
    JsValue.bignum (s.tokenCalcShare rp.pool.asset.address (s.balanceOf rp.pool.address address))
  else
    JsValue.emptyObject

/-- The record assembled by `summary`; `underlyingBalanceOf := none`
models the field being absent from the output object. -/
structure Summary where
  address : String
  user : String
  pool : PoolDescriptor
  isActive : Bool
  stakedBalance : Nat
  unstakedBalance : Nat
  earnedRewards : Nat
  percentageOwnership : String
  usdValueOf : Nat
  underlyingBalanceOf : Option JsValue
deriving DecidableEq

/-- `summary(address)`: gathers the six values and assembles the output;
the source guards the optional field with
`if (underlyingBalanceOf) output.underlyingBalanceOf = underlyingBalanceOf`,
a JavaScript truthiness test on the helper's result. -/
def RewardsPool.summary (rp : RewardsPool) (s : ChainState) (address : String) : Summary :=
  let u := rp.summaryUnderlying s address
  { address := rp.pool.address
    user := address
    pool := rp.pool
    isActive := s.isAddressActive rp.pool.address
    stakedBalance := rp.stakedBalance s address
    unstakedBalance := rp.unstakedBalance s address
    earnedRewards := rp.earnedRewards s address
    percentageOwnership := rp.percentageOwnership s address
    usdValueOf := rp.usdValueOf s address
    underlyingBalanceOf := if u.truthy then some u else none }

/-- One chain operation issued by `approveAndStake`: the two concurrent
reads, an `approve` submission, or a `stake` submission. -/
inductive ChainOp
  | readAllowance (tokenAddr owner spender : String)
  | readTokenBalance (tokenAddr owner : String)
  | approve (tokenAddr spender : String) (amount : Nat)
  | stake (poolAddr : String) (amount : Nat)
deriving DecidableEq

/-- Whether a chain operation is a state mutation (a transaction
submission) rather than a read. -/
def ChainOp.isMutation : ChainOp → Bool
  | ChainOp.approve _ _ _ => true
  | ChainOp.stake _ _ => true
  | _ => false

/-- Whether a chain operation is an `approve` submission. -/
def ChainOp.isApprove : ChainOp → Bool
  | ChainOp.approve _ _ _ => true
  | _ => false

/-- The result of `approveAndStake`: the thrown `'No signer'` error, the
silent `return;` (undefined) on insufficient funds, or the awaited stake
transaction's result. -/
inductive StakeOutcome
  | noSignerError
  | insufficientNoop
  | receipt (amount : Nat)
deriving DecidableEq

/-- The amount defaulting step `if (!amnt || amnt.isZero()) amnt = balance`:
an absent or zero amount becomes the wallet balance. -/
def effectiveAmount (amnt : Option Nat) (balance : Nat) : Nat :=
  match amnt with
  | none => balance
  | some a => if a = 0 then balance else a

/-- The wallet balance `approveAndStake` reads:
`this.lptoken.balanceOf(me)` for the signer's address. -/
def RewardsPool.walletBalance (rp : RewardsPool) (s : ChainState) : Nat :=
  s.tokenBalanceOf rp.pool.asset.address rp.provider.signerAddress

/-- The allowance `approveAndStake` reads:
`this.lptoken.allowances(me, this.address)`. -/
def RewardsPool.currentAllowance (rp : RewardsPool) (s : ChainState) : Nat :=
  s.tokenAllowance rp.pool.asset.address rp.provider.signerAddress rp.pool.address

/-- `approveAndStake(amnt, approveForever)`: throws `'No signer'` unless
the provider is a signer; concurrently reads allowance and wallet
balance; defaults an absent or zero amount to the balance; silently
no-ops when the balance is below the amount; submits an approval when
`approveForever` is set or the allowance is below the balance (for the
`MaxUint256` sentinel when `approveForever`, else for the amount);
always submits the stake for the amount and returns its result. The
second component lists the issued chain operations in submission
order. -/
def RewardsPool.approveAndStake (rp : RewardsPool) (s : ChainState)
    (amnt : Option Nat) (approveForever : Bool) : StakeOutcome × List ChainOp :=
  if rp.provider.isSigner = false then
    (StakeOutcome.noSignerError, [])
  else
    let me := rp.provider.signerAddress
    let lp := rp.pool.asset.address
    let allowance := s.tokenAllowance lp me rp.pool.address
    let balance := s.tokenBalanceOf lp me
    let reads := [ChainOp.readAllowance lp me rp.pool.address, ChainOp.readTokenBalance lp me]
    let amount := effectiveAmount amnt balance
    if balance < amount then
      (StakeOutcome.insufficientNoop, reads)
    else
      let approveOps :=
        if approveForever = true ∨ allowance < balance then
          [ChainOp.approve lp rp.pool.address (if approveForever then MaxUint256 else amount)]
        else []
      (StakeOutcome.receipt amount, reads ++ approveOps ++ [ChainOp.stake rp.pool.address amount])

/-! Concrete fixtures used by counterexamples and witnesses. -/

/-- A plain staked asset whose adapter lacks the conversion capability. -/
def usdcAsset : Asset := ⟨"USDC", "0xusdc", false⟩

/-- A reward asset. -/
def farmAsset : Asset := ⟨"FARM", "0xfarm", false⟩

/-- A vault-share staked asset whose adapter has the conversion capability. -/
def vaultAsset : Asset := ⟨"fUSDC", "0xvault", true⟩

/-- A harvest-tagged descriptor over the plain staked asset. -/
def descHarvest : PoolDescriptor := ⟨"0xpool", none, usdcAsset, farmAsset, some "harvest"⟩

/-- A descriptor carrying the tag the factory actually matches. -/
def descAuto : PoolDescriptor := ⟨"0xpool2", none, usdcAsset, farmAsset, some "autocompounding"⟩

/-- A descriptor carrying the hyphenated tag the spec names. -/
def descAutoHyphen : PoolDescriptor :=
  ⟨"0xpool3", none, usdcAsset, farmAsset, some "auto-compounding"⟩

/-- A descriptor over the vault asset (conversion supported). -/
def descVault : PoolDescriptor := ⟨"0xpool4", none, vaultAsset, farmAsset, none⟩

/-- A signing connection. -/
def signerProvider : Provider := ⟨true, "0xme"⟩

/-- A read-only (non-signer) connection. -/
def readOnlyProvider : Provider := ⟨false, "0xme"⟩

/-- A concrete environment: staked balance 40, total supply 200, earned
rewards 5, wallet balance 100, allowance 30. -/
def state1 : ChainState :=
  ⟨fun _ _ => 40, fun _ => 200, fun _ _ => 5, fun _ _ => 100,
   fun _ _ _ => 30, fun _ n => 2 * n, fun _ n => n + 1, fun _ => true⟩

/-- An environment with an empty wallet (balance 0) and zero allowance. -/
def stateEmptyWallet : ChainState :=
  ⟨fun _ _ => 40, fun _ => 200, fun _ _ => 5, fun _ _ => 0,
   fun _ _ _ => 0, fun _ n => 2 * n, fun _ n => n + 1, fun _ => true⟩

/-! Theorems settling the claims. -/

/-- Claim C1, code behavior at the failing input: `summary` includes the
`underlyingBalanceOf` field in both cases — as the converted amount when
the staked-asset adapter supports conversion, but as the truthy
empty-object placeholder (not omitted, contrary to the claim) when it
does not. -/
theorem summary_always_includes_underlying_field :
    ((RewardsPool.fromPool descHarvest signerProvider).summary state1 "0xuser").underlyingBalanceOf
        = some JsValue.emptyObject ∧
    ((RewardsPool.fromPool descVault signerProvider).summary state1 "0xuser").underlyingBalanceOf
        = some (JsValue.bignum 41) := by
  constructor <;> rfl

/-- Claim C2, counterexample: a descriptor whose type tag is the
hyphenated string the spec names falls through to the harvest default,
so `earnedRewards` returns the contract's `earned` value (5 in this
environment), not 0. -/
theorem fromPool_hyphenated_tag_earnedRewards_ne_zero :
    ¬ ((RewardsPool.fromPool descAutoHyphen signerProvider).earnedRewards state1 "0xuser" = 0) := by
  decide

/-- Claim C2, amended: every descriptor whose type tag is
`"autocompounding"` (the string the factory's switch actually matches)
yields a pool whose `earnedRewards` is 0 for every address and every
on-chain state. -/
theorem autocompounding_earnedRewards_zero (pool : PoolDescriptor) (provider : Provider)
    (s : ChainState) (address : String) (h : pool.type = some "autocompounding") :
    (RewardsPool.fromPool pool provider).earnedRewards s address = 0 := by
  simp [RewardsPool.fromPool, h, RewardsPool.earnedRewards]

/-- Witness for the amended claim C2 at a concrete descriptor, state and
address. -/
theorem autocompounding_earnedRewards_zero_witness :
    (RewardsPool.fromPool descAuto signerProvider).earnedRewards state1 "0xuser" = 0 :=
  autocompounding_earnedRewards_zero descAuto signerProvider state1 "0xuser" rfl

/-- Claim C3: every descriptor whose type tag is anything other than
`"autocompounding"` — `"harvest"`, an unrecognized tag, or an absent
tag — yields a pool (construction is total) whose `earnedRewards` is
exactly the contract's `earned` value, untransformed. -/
theorem default_earnedRewards_passthrough (pool : PoolDescriptor) (provider : Provider)
    (s : ChainState) (address : String) (h : ¬ pool.type = some "autocompounding") :
    (RewardsPool.fromPool pool provider).earnedRewards s address
      = s.earned pool.address address := by
  simp [RewardsPool.fromPool, h, RewardsPool.earnedRewards]

/-- Witness for claim C3 at a concrete harvest-tagged descriptor. -/
theorem default_earnedRewards_passthrough_witness :
    (RewardsPool.fromPool descHarvest signerProvider).earnedRewards state1 "0xuser"
      = state1.earned descHarvest.address "0xuser" :=
  default_earnedRewards_passthrough descHarvest signerProvider state1 "0xuser" (by decide)

/-- Claim C4: with a signer and a present, non-zero amount strictly
above the wallet balance, `approveAndStake` returns the silent no-op
(the bare `return;`, i.e. undefined) and every chain operation it issued
is a read — neither an approval nor a stake submission occurs. -/
theorem approveAndStake_insufficient_silent_noop (rp : RewardsPool) (s : ChainState)
    (a : Nat) (approveForever : Bool)
    (hs : rp.provider.isSigner = true) (ha : a ≠ 0) (hb : rp.walletBalance s < a) :
    (rp.approveAndStake s (some a) approveForever).1 = StakeOutcome.insufficientNoop ∧
    ∀ op ∈ (rp.approveAndStake s (some a) approveForever).2, op.isMutation = false := by
  have hb2 : s.tokenBalanceOf rp.pool.asset.address rp.provider.signerAddress < a := hb
  constructor
  · simp [RewardsPool.approveAndStake, hs, effectiveAmount, ha, hb2]
  · simp [RewardsPool.approveAndStake, hs, effectiveAmount, ha, hb2, ChainOp.isMutation]

/-- Witness for claim C4: wallet balance 100, requested amount 150. -/
theorem approveAndStake_insufficient_silent_noop_witness :
    ((RewardsPool.fromPool descHarvest signerProvider).approveAndStake state1 (some 150) false).1
        = StakeOutcome.insufficientNoop ∧
    ∀ op ∈ ((RewardsPool.fromPool descHarvest signerProvider).approveAndStake state1
        (some 150) false).2, op.isMutation = false :=
  approveAndStake_insufficient_silent_noop (RewardsPool.fromPool descHarvest signerProvider)
    state1 150 false rfl (by decide) (by decide)

/-- Claim C5: an absent amount and a zero amount each make
`approveAndStake` behave exactly like passing the wallet balance — same
outcome and same issued chain operations — for every pool, state and
`approveForever` flag. -/
theorem approveAndStake_zero_or_absent_defaults (rp : RewardsPool) (s : ChainState)
    (approveForever : Bool) :
    rp.approveAndStake s none approveForever
        = rp.approveAndStake s (some (rp.walletBalance s)) approveForever ∧
    rp.approveAndStake s (some 0) approveForever
        = rp.approveAndStake s (some (rp.walletBalance s)) approveForever := by
  constructor <;>
    simp [RewardsPool.approveAndStake, effectiveAmount, RewardsPool.walletBalance, ite_self]

/-- Claim C6: without a signer bound to the connection,
`approveAndStake` fails with the no-signer error and its chain-operation
log is empty — the failure precedes every on-chain read and
transaction. -/
theorem approveAndStake_no_signer (rp : RewardsPool) (s : ChainState)
    (amnt : Option Nat) (approveForever : Bool) (h : rp.provider.isSigner = false) :
    rp.approveAndStake s amnt approveForever = (StakeOutcome.noSignerError, []) := by
  simp [RewardsPool.approveAndStake, h]

/-- Witness for claim C6 on a read-only connection. -/
theorem approveAndStake_no_signer_witness :
    (RewardsPool.fromPool descHarvest readOnlyProvider).approveAndStake state1 (some 10) false
      = (StakeOutcome.noSignerError, []) :=
  approveAndStake_no_signer (RewardsPool.fromPool descHarvest readOnlyProvider) state1
    (some 10) false rfl

/-- Claim C7: past the signer and balance checks, the log contains an
approval exactly when `approveForever` is set or the allowance is below
the wallet balance, and that approval is for the `MaxUint256` sentinel
when `approveForever` is set and for the (possibly defaulted) amount
otherwise. -/
theorem approveAndStake_approval_condition (rp : RewardsPool) (s : ChainState)
    (amnt : Option Nat) (approveForever : Bool)
    (hs : rp.provider.isSigner = true)
    (hb : effectiveAmount amnt (rp.walletBalance s) ≤ rp.walletBalance s) :
    ((rp.approveAndStake s amnt approveForever).2).filter ChainOp.isApprove
      = if approveForever = true ∨ rp.currentAllowance s < rp.walletBalance s then
          [ChainOp.approve rp.pool.asset.address rp.pool.address
            (if approveForever then MaxUint256 else effectiveAmount amnt (rp.walletBalance s))]
        else [] := by
  have hb2 : ¬ (s.tokenBalanceOf rp.pool.asset.address rp.provider.signerAddress
      < effectiveAmount amnt (s.tokenBalanceOf rp.pool.asset.address rp.provider.signerAddress)) :=
    Nat.not_lt.mpr hb
  by_cases hf : approveForever = true
      ∨ s.tokenAllowance rp.pool.asset.address rp.provider.signerAddress rp.pool.address
          < s.tokenBalanceOf rp.pool.asset.address rp.provider.signerAddress
  · simp [RewardsPool.approveAndStake, hs, hb2, hf, RewardsPool.currentAllowance,
      RewardsPool.walletBalance, List.filter_append, List.filter, ChainOp.isApprove]
  · simp [RewardsPool.approveAndStake, hs, hb2, hf, RewardsPool.currentAllowance,
      RewardsPool.walletBalance, List.filter_append, List.filter, ChainOp.isApprove]

/-- Witness for claim C7: allowance 30 below balance 100 with
`approveForever` unset triggers an approval for exactly the requested
amount 50. -/
theorem approveAndStake_approval_condition_witness :
    (((RewardsPool.fromPool descHarvest signerProvider).approveAndStake state1
        (some 50) false).2).filter ChainOp.isApprove
      = [ChainOp.approve "0xusdc" "0xpool" 50] := by
  have h := approveAndStake_approval_condition (RewardsPool.fromPool descHarvest signerProvider)
    state1 (some 50) false rfl (by decide)
  exact h.trans (by decide)

/-- Claim C8: `percentageOfTotal` returns "0%" on a zero amount, returns
"0%" on a zero total supply (no division happens), and otherwise returns
the ratio `a * WeiPerEther / total` formatted at 16 decimals, sliced to
its first five characters, with "%" appended. -/
theorem percentageOfTotal_cases (rp : RewardsPool) (s : ChainState) (a : Nat) :
    (a = 0 → rp.percentageOfTotal s a = "0%") ∧
    (a ≠ 0 → s.totalSupply rp.pool.address = 0 → rp.percentageOfTotal s a = "0%") ∧
    (a ≠ 0 → s.totalSupply rp.pool.address ≠ 0 →
      rp.percentageOfTotal s a
        = (formatUnits (a * WeiPerEther / s.totalSupply rp.pool.address) 16).take 5 ++ "%") := by
  refine ⟨fun h => ?_, fun h1 h2 => ?_, fun h1 h2 => ?_⟩
  · simp [RewardsPool.percentageOfTotal, h]
  · simp [RewardsPool.percentageOfTotal, h1, h2]
  · simp [RewardsPool.percentageOfTotal, h1, h2]

/-- Witness for claim C8: 40 tokens of a 200-token supply format as
"20.0%". -/
theorem percentageOfTotal_cases_witness :
    (RewardsPool.fromPool descHarvest signerProvider).percentageOfTotal state1 40 = "20.0%" := by
  have h := (percentageOfTotal_cases (RewardsPool.fromPool descHarvest signerProvider)
    state1 40).2.2 (by decide) (by decide)
  exact h.trans (by decide)

/-- Claim C9: `percentageOwnership` of an address is `percentageOfTotal`
of the construction-time `stakedBalance` alias (the contract's
`balanceOf`) at that address. -/
theorem percentageOwnership_eq_percentageOfTotal_stakedBalance
    (rp : RewardsPool) (s : ChainState) (address : String) :
    rp.percentageOwnership s address = rp.percentageOfTotal s (rp.stakedBalance s address) := rfl

/-- Claim C10: with a signer and an absent or zero amount, the
insufficient-funds no-op branch of `approveAndStake` is unreachable —
even on an empty wallet the call returns the stake receipt for the
wallet balance and a stake submission for that balance appears in the
log. -/
theorem approveAndStake_defaulted_noop_unreachable (rp : RewardsPool) (s : ChainState)
    (amnt : Option Nat) (approveForever : Bool)
    (hs : rp.provider.isSigner = true) (ha : amnt = none ∨ amnt = some 0) :
    (rp.approveAndStake s amnt approveForever).1 = StakeOutcome.receipt (rp.walletBalance s) ∧
    ChainOp.stake rp.pool.address (rp.walletBalance s)
      ∈ (rp.approveAndStake s amnt approveForever).2 := by
  rcases ha with rfl | rfl <;>
    constructor <;>
      simp [RewardsPool.approveAndStake, hs, effectiveAmount, RewardsPool.walletBalance,
        List.mem_append]

/-- Witness for claim C10 on an empty wallet: the call still reaches the
stake submission (for 0 tokens). -/
theorem approveAndStake_defaulted_noop_unreachable_witness :
    ((RewardsPool.fromPool descHarvest signerProvider).approveAndStake stateEmptyWallet
        none false).1
      = StakeOutcome.receipt
          ((RewardsPool.fromPool descHarvest signerProvider).walletBalance stateEmptyWallet) ∧
    ChainOp.stake (RewardsPool.fromPool descHarvest signerProvider).pool.address
        ((RewardsPool.fromPool descHarvest signerProvider).walletBalance stateEmptyWallet)
      ∈ ((RewardsPool.fromPool descHarvest signerProvider).approveAndStake stateEmptyWallet
          none false).2 :=
  approveAndStake_defaulted_noop_unreachable (RewardsPool.fromPool descHarvest signerProvider)
    stateEmptyWallet none false rfl (Or.inl rfl)

end Dashboard
